import Mathlib

/-!
Shallow embedding of the SkillFlow content-generation gateway
(`src/unnamed/part_002`, the current `/api/generate` route, plus the
older `src/app/api/generate/route.ts` waterfall that skips Gemma models
when a file is attached).  Provider calls, the Supabase cache and the
YouTube search are modelled as explicit oracle inputs; the route handler
`POST` is a pure function of the request, the cache contents and those
oracles, returning the HTTP response together with the final cache
contents, the trace of cache operations, and the list of
(model, credential) pairs that actually received a generation call.
-/

namespace SkillFlow

/-- Truthiness of an optional string field, as JavaScript evaluates it:
`undefined` and the empty string are falsy. -/
def strTruthy : Option String → Bool
  | none => false
  | some s => s != ""

/-- JavaScript `x || d` applied to an optional string field `x`:
an absent or empty value is replaced by the default `d`. -/
def jsOr : Option String → String → String
  | none, d => d
  | some s, d => if s == "" then d else s

/-- Check that `pat` matches at the head of `l`. -/
def leadMatch : List Char → List Char → Bool
  | [], _ => true
  | _ :: _, [] => false
  | a :: as, b :: bs => (a == b) && leadMatch as bs

/-- Check that `pat` occurs somewhere inside `l`. -/
def hasSubList (pat : List Char) : List Char → Bool
  | [] => leadMatch pat []
  | c :: rest => leadMatch pat (c :: rest) || hasSubList pat rest

/-- JavaScript `s.includes(sub)`: substring containment test. -/
def jsIncludes (s sub : String) : Bool := hasSubList sub.data s.data

/-- JavaScript `s.toLowerCase()`, character by character. -/
def jsToLower (s : String) : String := String.mk (s.data.map Char.toLower)

/-- Drop leading and trailing whitespace from a character list. -/
def trimList (l : List Char) : List Char :=
  ((l.dropWhile Char.isWhitespace).reverse.dropWhile Char.isWhitespace).reverse

/-- JavaScript `s.trim()`. -/
def jsTrim (s : String) : String := String.mk (trimList s.data)

/-- Character-level engine of `replace(/\s+/g, '-')`: every maximal run of
whitespace characters becomes a single hyphen. -/
def collapseWsList : List Char → List Char
  | [] => []
  | [c] => if c.isWhitespace then ['-'] else [c]
  | c :: c2 :: cs =>
    if c.isWhitespace then
      if c2.isWhitespace then collapseWsList (c2 :: cs)
      else '-' :: collapseWsList (c2 :: cs)
    else c :: collapseWsList (c2 :: cs)

/-- JavaScript `s.replace(/\s+/g, '-')`. -/
def collapseWs (s : String) : String := String.mk (collapseWsList s.data)

/-- Normalization of a free-text field as the spec words it
(spec 4.1: trim and lower-case all free-text fields).  This definition
follows the SPEC, not the code; it exists to compare the spec wording
with the key the code actually builds. -/
def specNormalize (s : String) : String := jsToLower (jsTrim s)

/-- One quiz question as it appears inside a parsed provider payload. -/
structure QuizQ where
  question : String
  options : List String
  correct_answer : String
deriving DecidableEq, Repr

/-- A provider payload after `JSON.parse` succeeded.  Every field is
optional: the code performs no shape validation, so any combination of
present and absent fields can flow through the gateway. -/
structure Payload where
  type : Option String
  title : Option String
  questions : Option (List QuizQ)
  explanation : Option String
  analogy : Option String
  key_points : Option (List String)
  quiz_question : Option String
  options : Option (List String)
  correct_answer : Option String
  video_url : Option String
deriving DecidableEq, Repr

/-- Shape constraint the spec states for successful quiz results:
exactly 5 questions, each with exactly 4 options and with
`correct_answer` among its own options.  This predicate comes from the
spec/claim wording; the code declares no such check. -/
def quizShapeOk (p : Payload) : Bool :=
  match p.questions with
  | none => false
  | some qs => (qs.length == 5) &&
      qs.all (fun q => (q.options.length == 4) && q.options.contains q.correct_answer)

/-- Shape constraint the spec states for successful lesson results:
exactly 4 options for the practice question with `correct_answer` among
them.  Spec-side predicate; the code declares no such check. -/
def lessonShapeOk (p : Payload) : Bool :=
  match p.options, p.correct_answer with
  | some opts, some ca => (opts.length == 4) && opts.contains ca
  | _, _ => false

/-- Forget the `video_url` field of a payload (used to compare responses
up to the video reference). -/
def eraseVideo (p : Payload) : Payload := { p with video_url := none }

/-- Outcome of one generation call, as the route observes it:
a thrown error (network failure, non-2xx, timeout), a response whose
text does not decode as JSON (`JSON.parse` throws), or a successfully
parsed payload. -/
inductive Attempt where
  | err (msg : String)
  | malformed (msg : String)
  | parsed (p : Payload)
deriving DecidableEq, Repr

/-- An attempt counts as a failure exactly when it does not yield a
parsed payload; both thrown errors and `JSON.parse` exceptions land in
the same `catch` block of the loop. -/
def Attempt.isFail : Attempt → Bool
  | .parsed _ => false
  | _ => true

/-- Error message recorded into `lastError` by a failing attempt. -/
def Attempt.msg : Attempt → String
  | .err m => m
  | .malformed m => m
  | .parsed _ => ""

/-- Default used when the outcome oracle runs out of entries: the call
is treated as a plain failed attempt. -/
def noResp : Attempt := Attempt.err "no response"

/-- Source line `API_KEYS[Math.floor(Math.random() * API_KEYS.length)]`:
for a non-empty key list this picks the entry at the drawn index; for an
empty list the JavaScript expression evaluates to `undefined`, which the
embedding renders as `none`.  There is no emptiness check. -/
def getRandomKey (keys : List String) (r : Nat) : Option String :=
  keys.get? (r % keys.length)

/-- The model list of `src/unnamed/part_002` (note `gemma-3-1b` appears
twice in the source). -/
def MODELS_TO_TRY : List String :=
  ["gemini-3-flash-preview", "gemini-2.5-flash", "gemini-2.5-flash-lite",
   "gemma-3-27b", "gemma-3-12b", "gemma-3-4b", "gemma-3-2b",
   "gemma-3-1b", "gemma-3-1b",
   "gemini-robotics-er-1.5-preview", "gemini-1.5-flash"]

/-- The model list of the first `POST` in
`src/app/api/generate/route.ts`. -/
def ROUTE_MODELS : List String :=
  ["gemini-3-flash-preview", "gemini-2.5-flash", "gemini-2.5-flash-lite",
   "gemma-3-27b", "gemma-3-12b", "gemma-3-4b", "gemma-3-2b", "gemma-3-1b",
   "gemini-robotics-er-1.5-preview", "gemini-1.5-flash"]

/-- Result of the model waterfall loop: the parsed payload if some
candidate succeeded, the final value of `lastError`, and the ordered
list of (model, credential) pairs that received a generation call. -/
structure WfResult where
  result : Option Payload
  lastError : String
  called : List (String × Option String)
deriving DecidableEq, Repr

/-- The waterfall loop of `src/unnamed/part_002` lines 190-214: iterate
the candidate list in order; every iteration draws a random credential
and issues one generation call; a parsed payload breaks the loop; any
thrown error or decode failure records `lastError` and continues.  The
oracle list supplies the outcome of each call positionally; `pick`
supplies the random draws. -/
def runWaterfall (keys : List String) (pick : Nat → Nat) (i : Nat)
    (models : List String) (oracle : List Attempt) (lastErr : String) : WfResult :=
  match models with
  | [] => ⟨none, lastErr, []⟩
  | m :: ms =>
    let k := getRandomKey keys (pick i)
    match oracle.headD noResp with
    | .parsed p => ⟨some p, lastErr, [(m, k)]⟩
    | .err e =>
      let r := runWaterfall keys pick (i + 1) ms oracle.tail e
      ⟨r.result, r.lastError, (m, k) :: r.called⟩
    | .malformed e =>
      let r := runWaterfall keys pick (i + 1) ms oracle.tail e
      ⟨r.result, r.lastError, (m, k) :: r.called⟩

/-- The waterfall loop of the first `POST` in
`src/app/api/generate/route.ts` (lines 160-209): identical to
`runWaterfall` except that, when a file is attached, any candidate whose
name includes "gemma" is skipped with `continue` before a credential is
drawn or a call is issued. -/
def runWaterfallRoute (keys : List String) (pick : Nat → Nat) (i : Nat)
    (filePresent : Bool) (models : List String) (oracle : List Attempt)
    (lastErr : String) : WfResult :=
  match models with
  | [] => ⟨none, lastErr, []⟩
  | m :: ms =>
    if filePresent && jsIncludes m "gemma" then
      runWaterfallRoute keys pick i filePresent ms oracle lastErr
    else
      let k := getRandomKey keys (pick i)
      match oracle.headD noResp with
      | .parsed p => ⟨some p, lastErr, [(m, k)]⟩
      | .err e =>
        let r := runWaterfallRoute keys pick (i + 1) filePresent ms oracle.tail e
        ⟨r.result, r.lastError, (m, k) :: r.called⟩
      | .malformed e =>
        let r := runWaterfallRoute keys pick (i + 1) filePresent ms oracle.tail e
        ⟨r.result, r.lastError, (m, k) :: r.called⟩
termination_by structural models

/-- Outcome of the single YouTube search fetch: the request threw or
returned undecodable data, or it returned a (possibly empty) items
list of video ids. -/
inductive YtFetch where
  | fail
  | items (ids : List String)
deriving DecidableEq, Repr

/-- Source `searchYouTube` (part_002 lines 42-59): returns the empty
string when the API key is missing, the fetch fails, or no items come
back; otherwise the first video id.  It never throws: every failure path
is caught and resolved to the empty string. -/
def searchYouTube (apiKey : Option String) (f : YtFetch) : String :=
  if strTruthy apiKey then
    match f with
    | .fail => ""
    | .items ids => ids.headD ""
  else ""

/-- Step 5 of `POST` (part_002 lines 231-240): for a payload whose
`type` is "lesson" with a truthy title, run the video search and attach
`video_url` only when a non-empty id came back; otherwise the payload is
returned unchanged. -/
def enrich (p : Payload) (ytKey : Option String) (f : YtFetch) : Payload :=
  if p.type == some "lesson" && strTruthy p.title then
    if searchYouTube ytKey f != "" then
      { p with video_url := some ("https://www.youtube.com/watch?v=" ++ searchYouTube ytKey f) }
    else p
  else p

/-- The JSON body fields the route destructures. -/
structure GenRequest where
  topic : Option String
  level : String
  language : String
  fileData : Option String
  mimeType : Option String
  mode : Option String
  explanationStyle : Option String
  complexity : Option String
  format : Option String
deriving DecidableEq, Repr

/-- Guard `topic && topic.length > 500`. -/
def tooLongTopic (req : GenRequest) : Bool :=
  strTruthy req.topic && (req.topic.getD "").length > 500

/-- Guard `fileData && fileData.length > 10 * 1024 * 1024`. -/
def tooBigFile (req : GenRequest) : Bool :=
  strTruthy req.fileData && (req.fileData.getD "").length > 10485760

/-- Source `cleanTopic`: a truthy topic is trimmed and lower-cased,
otherwise the literal "uploaded-file" is used. -/
def cleanTopicOf (t : Option String) : String :=
  match t with
  | some s => if s == "" then "uploaded-file" else jsToLower (jsTrim s)
  | none => "uploaded-file"

/-- Source `cacheKey` (part_002 line 77): whitespace-collapsed clean
topic, lower-cased level and language, then the four knobs with their
JavaScript `||` defaults, joined by hyphens. -/
def cacheKeyOf (req : GenRequest) : String :=
  collapseWs (cleanTopicOf req.topic) ++ "-" ++ jsToLower req.level ++ "-" ++
    jsToLower req.language ++ "-" ++ jsOr req.mode "lesson" ++ "-" ++
    jsOr req.explanationStyle "default" ++ "-" ++ jsOr req.complexity "medium" ++ "-" ++
    jsOr req.format "paragraph"

/-- Trace of cache interactions performed by one request. -/
inductive CacheOp where
  | read (key : String)
  | write (key : String) (p : Payload)
deriving DecidableEq, Repr

/-- Supabase `.select("content").eq("topic_slug", key).single()`: first
entry under the key, if any. -/
def cacheGet (cache : List (String × Payload)) (k : String) : Option Payload :=
  (cache.find? (fun e => e.1 == k)).map (fun e => e.2)

/-- The write operations contained in a cache-operation trace. -/
def writesOf (ops : List CacheOp) : List (String × Payload) :=
  ops.filterMap (fun o => match o with | .write k p => some (k, p) | _ => none)

/-- The HTTP response the route produces: `NextResponse.json(content)`
or `NextResponse.json({error}, {status})`. -/
inductive Response where
  | json (p : Payload)
  | jsonErr (msg : String) (status : Nat)
deriving DecidableEq, Repr

/-- Everything observable about one run of the route. -/
structure PostResult where
  resp : Response
  cache : List (String × Payload)
  ops : List CacheOp
  called : List (String × Option String)
deriving DecidableEq, Repr

/-- Steps 3-5 of `POST` (waterfall, cache write, enrichment), entered
after the guards and the cache lookup; `readOps` records whatever cache
reads already happened. -/
def postGenerate (req : GenRequest) (cache : List (String × Payload))
    (readOps : List CacheOp) (keys : List String) (pick : Nat → Nat)
    (oracle : List Attempt) (ytKey : Option String) (yt : YtFetch) : PostResult :=
  let key := cacheKeyOf req
  let wf := runWaterfall keys pick 0 MODELS_TO_TRY oracle ""
  match wf.result with
  | none =>
    ⟨.jsonErr ("System busy. Please try again. " ++ wf.lastError) 500, cache, readOps, wf.called⟩
  | some p =>
    if strTruthy req.fileData then
      ⟨.json (enrich p ytKey yt), cache, readOps, wf.called⟩
    else
      ⟨.json (enrich p ytKey yt), cache ++ [(key, p)], readOps ++ [.write key p], wf.called⟩

/-- The route handler of `src/unnamed/part_002`: input guards, cache
lookup (skipped when a file is attached), waterfall, cache write
(skipped when a file is attached), video enrichment, response. -/
def POST (req : GenRequest) (cache : List (String × Payload)) (keys : List String)
    (pick : Nat → Nat) (oracle : List Attempt) (ytKey : Option String)
    (yt : YtFetch) : PostResult :=
  if tooLongTopic req then ⟨.jsonErr "Topic is too long (Max 500 chars)" 400, cache, [], []⟩
  else if tooBigFile req then ⟨.jsonErr "Image too large" 400, cache, [], []⟩
  else if strTruthy req.fileData then
    postGenerate req cache [] keys pick oracle ytKey yt
  else
    match cacheGet cache (cacheKeyOf req) with
    | some content => ⟨.json content, cache, [.read (cacheKeyOf req)], []⟩
    | none => postGenerate req cache [.read (cacheKeyOf req)] keys pick oracle ytKey yt


/-! Helper lemmas about the waterfall loop. -/

lemma headD_eq_getD {α : Type} (l : List α) (d : α) : l.headD d = l.getD 0 d := by
  cases l <;> rfl

lemma tail_getD {α : Type} (l : List α) (n : Nat) (d : α) :
    l.tail.getD n d = l.getD (n + 1) d := by
  cases l <;> rfl

lemma runWaterfall_parsed (keys : List String) (pick : Nat → Nat) (i : Nat)
    (m : String) (ms : List String) (oracle : List Attempt) (e : String) (p : Payload)
    (h : oracle.headD noResp = Attempt.parsed p) :
    runWaterfall keys pick i (m :: ms) oracle e
      = ⟨some p, e, [(m, getRandomKey keys (pick i))]⟩ := by
  unfold runWaterfall
  rw [h]

lemma runWaterfall_failStep (keys : List String) (pick : Nat → Nat) (i : Nat)
    (m : String) (ms : List String) (oracle : List Attempt) (e : String)
    (h : (oracle.headD noResp).isFail = true) :
    runWaterfall keys pick i (m :: ms) oracle e
      = ⟨(runWaterfall keys pick (i + 1) ms oracle.tail ((oracle.headD noResp).msg)).result,
         (runWaterfall keys pick (i + 1) ms oracle.tail ((oracle.headD noResp).msg)).lastError,
         (m, getRandomKey keys (pick i)) ::
           (runWaterfall keys pick (i + 1) ms oracle.tail ((oracle.headD noResp).msg)).called⟩ := by
  cases hc : oracle.headD noResp with
  | parsed p => rw [hc] at h; simp [Attempt.isFail] at h
  | err e0 =>
    conv_lhs => rw [runWaterfall]
    rw [hc]
    rfl
  | malformed e0 =>
    conv_lhs => rw [runWaterfall]
    rw [hc]
    rfl

lemma wf_stops_at_first_success (keys : List String) (pick : Nat → Nat) :
    ∀ (k : Nat) (models : List String) (oracle : List Attempt) (i : Nat) (e : String)
      (p : Payload), k < models.length →
      (∀ j, j < k → (oracle.getD j noResp).isFail = true) →
      oracle.getD k noResp = Attempt.parsed p →
      (runWaterfall keys pick i models oracle e).result = some p ∧
      (runWaterfall keys pick i models oracle e).called.map Prod.fst = models.take (k + 1) := by
  intro k
  induction k with
  | zero =>
    intro models oracle i e p hk hfail hsucc
    match models with
    | [] => exact absurd hk (by simp)
    | m :: ms =>
      have hh : oracle.headD noResp = Attempt.parsed p := by
        rw [headD_eq_getD]; exact hsucc
      rw [runWaterfall_parsed keys pick i m ms oracle e p hh]
      simp
  | succ k ih =>
    intro models oracle i e p hk hfail hsucc
    match models with
    | [] => exact absurd hk (by simp)
    | m :: ms =>
      have h0 := hfail 0 (Nat.succ_pos k)
      have hh : (oracle.headD noResp).isFail = true := by
        rw [headD_eq_getD]; exact h0
      have hk2 : k < ms.length := Nat.lt_of_succ_lt_succ hk
      have hfail2 : ∀ j, j < k → (oracle.tail.getD j noResp).isFail = true := by
        intro j hj; rw [tail_getD]; exact hfail (j + 1) (Nat.succ_lt_succ hj)
      have hsucc2 : oracle.tail.getD k noResp = Attempt.parsed p := by
        rw [tail_getD]; exact hsucc
      have hr := ih ms oracle.tail (i + 1) ((oracle.headD noResp).msg) p hk2 hfail2 hsucc2
      rw [runWaterfall_failStep keys pick i m ms oracle e hh]
      simpa using hr

lemma wf_all_fail (keys : List String) (pick : Nat → Nat) :
    ∀ (models : List String) (oracle : List Attempt) (i : Nat) (e : String),
      (∀ j, j < models.length → (oracle.getD j noResp).isFail = true) →
      (runWaterfall keys pick i models oracle e).result = none ∧
      (runWaterfall keys pick i models oracle e).called.map Prod.fst = models := by
  intro models
  induction models with
  | nil => intro oracle i e hf; simp [runWaterfall]
  | cons m ms ih =>
    intro oracle i e hfail
    have hh : (oracle.headD noResp).isFail = true := by
      rw [headD_eq_getD]; exact hfail 0 (by simp)
    have hfail2 : ∀ j, j < ms.length → (oracle.tail.getD j noResp).isFail = true := by
      intro j hj; rw [tail_getD]
      exact hfail (j + 1) (by simpa using Nat.succ_lt_succ hj)
    have hr := ih oracle.tail (i + 1) ((oracle.headD noResp).msg) hfail2
    rw [runWaterfall_failStep keys pick i m ms oracle e hh]
    simpa using hr

lemma wf_all_fail_lastError (keys : List String) (pick : Nat → Nat) :
    ∀ (models : List String) (oracle : List Attempt) (i : Nat) (e : String),
      models ≠ [] →
      (∀ j, j < models.length → (oracle.getD j noResp).isFail = true) →
      (runWaterfall keys pick i models oracle e).lastError
        = (oracle.getD (models.length - 1) noResp).msg := by
  intro models
  induction models with
  | nil => intro oracle i e hne hf; exact absurd rfl hne
  | cons m ms ih =>
    intro oracle i e hne hfail
    have hh : (oracle.headD noResp).isFail = true := by
      rw [headD_eq_getD]; exact hfail 0 (by simp)
    have hfail2 : ∀ j, j < ms.length → (oracle.tail.getD j noResp).isFail = true := by
      intro j hj; rw [tail_getD]
      exact hfail (j + 1) (by simpa using Nat.succ_lt_succ hj)
    rw [runWaterfall_failStep keys pick i m ms oracle e hh]
    cases ms with
    | nil => simp [runWaterfall, List.head?_eq_getElem?]
    | cons m2 ms2 =>
      have hr := ih oracle.tail (i + 1) ((oracle.headD noResp).msg) (by simp) hfail2
      rw [tail_getD] at hr
      simp only [List.length_cons] at hr ⊢
      simpa using hr

lemma wf_keys_none (pick : Nat → Nat) :
    ∀ (models : List String) (oracle : List Attempt) (i : Nat) (e : String)
      (x : String × Option String),
      x ∈ (runWaterfall [] pick i models oracle e).called → x.2 = none := by
  intro models
  induction models with
  | nil => intro oracle i e x hx; simp [runWaterfall] at hx
  | cons m ms ih =>
    intro oracle i e x hx
    cases hc : oracle.headD noResp with
    | parsed p =>
      rw [runWaterfall_parsed [] pick i m ms oracle e p hc] at hx
      simp [getRandomKey] at hx
      simp [hx]
    | err e0 =>
      rw [runWaterfall_failStep [] pick i m ms oracle e (by rw [hc]; rfl)] at hx
      rcases List.mem_cons.mp hx with h | h
      · rw [h]; simp [getRandomKey]
      · exact ih oracle.tail (i + 1) ((oracle.headD noResp).msg) x h
    | malformed e0 =>
      rw [runWaterfall_failStep [] pick i m ms oracle e (by rw [hc]; rfl)] at hx
      rcases List.mem_cons.mp hx with h | h
      · rw [h]; simp [getRandomKey]
      · exact ih oracle.tail (i + 1) ((oracle.headD noResp).msg) x h


/-! Step lemmas for the route.ts waterfall (the variant with the Gemma
skip), and the skip property itself. -/

lemma runWaterfallRoute_skip (keys : List String) (pick : Nat → Nat) (i : Nat)
    (fp : Bool) (m : String) (ms : List String) (oracle : List Attempt) (e : String)
    (h : (fp && jsIncludes m "gemma") = true) :
    runWaterfallRoute keys pick i fp (m :: ms) oracle e
      = runWaterfallRoute keys pick i fp ms oracle e := by
  conv_lhs => rw [runWaterfallRoute]
  rw [if_pos h]

lemma runWaterfallRoute_parsed (keys : List String) (pick : Nat → Nat) (i : Nat)
    (fp : Bool) (m : String) (ms : List String) (oracle : List Attempt) (e : String)
    (p : Payload) (hskip : (fp && jsIncludes m "gemma") = false)
    (h : oracle.headD noResp = Attempt.parsed p) :
    runWaterfallRoute keys pick i fp (m :: ms) oracle e
      = ⟨some p, e, [(m, getRandomKey keys (pick i))]⟩ := by
  conv_lhs => rw [runWaterfallRoute]
  rw [if_neg (by simp [hskip]), h]

lemma runWaterfallRoute_failStep (keys : List String) (pick : Nat → Nat) (i : Nat)
    (fp : Bool) (m : String) (ms : List String) (oracle : List Attempt) (e : String)
    (hskip : (fp && jsIncludes m "gemma") = false)
    (h : (oracle.headD noResp).isFail = true) :
    runWaterfallRoute keys pick i fp (m :: ms) oracle e
      = ⟨(runWaterfallRoute keys pick (i + 1) fp ms oracle.tail ((oracle.headD noResp).msg)).result,
         (runWaterfallRoute keys pick (i + 1) fp ms oracle.tail ((oracle.headD noResp).msg)).lastError,
         (m, getRandomKey keys (pick i)) ::
           (runWaterfallRoute keys pick (i + 1) fp ms oracle.tail ((oracle.headD noResp).msg)).called⟩ := by
  cases hc : oracle.headD noResp with
  | parsed p => rw [hc] at h; simp [Attempt.isFail] at h
  | err e0 =>
    conv_lhs => rw [runWaterfallRoute]
    rw [if_neg (by simp [hskip]), hc]
    rfl
  | malformed e0 =>
    conv_lhs => rw [runWaterfallRoute]
    rw [if_neg (by simp [hskip]), hc]
    rfl

/-! POST-level helper lemmas. -/

lemma POST_success (req : GenRequest) (cache : List (String × Payload))
    (keys : List String) (pick : Nat → Nat) (oracle : List Attempt)
    (ytKey : Option String) (yt : YtFetch) (p : Payload)
    (h1 : tooLongTopic req = false) (h2 : tooBigFile req = false)
    (h3 : strTruthy req.fileData = false)
    (h4 : cacheGet cache (cacheKeyOf req) = none)
    (h5 : (runWaterfall keys pick 0 MODELS_TO_TRY oracle "").result = some p) :
    POST req cache keys pick oracle ytKey yt =
      ⟨Response.json (enrich p ytKey yt), cache ++ [(cacheKeyOf req, p)],
       [CacheOp.read (cacheKeyOf req), CacheOp.write (cacheKeyOf req) p],
       (runWaterfall keys pick 0 MODELS_TO_TRY oracle "").called⟩ := by
  simp [POST, postGenerate, h1, h2, h3, h4, h5]

lemma POST_all_fail (req : GenRequest) (cache : List (String × Payload))
    (keys : List String) (pick : Nat → Nat) (oracle : List Attempt)
    (ytKey : Option String) (yt : YtFetch)
    (h1 : tooLongTopic req = false) (h2 : tooBigFile req = false)
    (hc : strTruthy req.fileData = false → cacheGet cache (cacheKeyOf req) = none)
    (hfail : ∀ j, j < MODELS_TO_TRY.length → (oracle.getD j noResp).isFail = true) :
    (POST req cache keys pick oracle ytKey yt).resp
        = Response.jsonErr ("System busy. Please try again. "
            ++ (oracle.getD (MODELS_TO_TRY.length - 1) noResp).msg) 500 ∧
    (POST req cache keys pick oracle ytKey yt).cache = cache ∧
    writesOf (POST req cache keys pick oracle ytKey yt).ops = [] ∧
    (POST req cache keys pick oracle ytKey yt).called
      = (runWaterfall keys pick 0 MODELS_TO_TRY oracle "").called ∧
    (POST req cache keys pick oracle ytKey yt).called.map Prod.fst = MODELS_TO_TRY := by
  have hwf := wf_all_fail keys pick MODELS_TO_TRY oracle 0 "" hfail
  have hle := wf_all_fail_lastError keys pick MODELS_TO_TRY oracle 0 ""
    (by decide) hfail
  by_cases hf : strTruthy req.fileData = true
  · simp [POST, postGenerate, h1, h2, hf, hwf.1, hwf.2, hle, writesOf]
  · have hf2 : strTruthy req.fileData = false := by simpa using hf
    have h4 := hc hf2
    simp [POST, postGenerate, h1, h2, hf2, h4, hwf.1, hwf.2, hle, writesOf]

/-! Concrete fixtures used by witnesses and counterexamples. -/

/-- Degenerate random source: always draws index 0. -/
def pick0 : Nat → Nat := fun _ => 0

/-- A well-shaped quiz question. -/
def goodQ : QuizQ :=
  { question := "Which planet is largest?",
    options := ["Mars", "Jupiter", "Venus", "Earth"], correct_answer := "Jupiter" }

/-- A quiz payload satisfying the spec shape (5 questions, 4 options each). -/
def goodQuiz : Payload :=
  { type := some "quiz", title := some "Planets",
    questions := some [goodQ, goodQ, goodQ, goodQ, goodQ],
    explanation := none, analogy := none, key_points := none, quiz_question := none,
    options := none, correct_answer := none, video_url := none }

/-- A syntactically valid quiz payload violating the spec shape: its
questions list is empty. -/
def badQuiz : Payload :=
  { type := some "quiz", title := some "Planets", questions := some [],
    explanation := none, analogy := none, key_points := none, quiz_question := none,
    options := none, correct_answer := none, video_url := none }

/-- A lesson payload that itself carries a model-supplied `video_url`,
exactly as the lesson prompt of part_002 instructs the provider to emit. -/
def lessonX : Payload :=
  { type := some "lesson", title := some "Gravity", questions := none,
    explanation := some "Things fall.", analogy := some "Like a magnet.",
    key_points := some ["k1", "k2", "k3"], quiz_question := some "What falls?",
    options := some ["A", "B", "C", "D"], correct_answer := some "A",
    video_url := some "model-supplied" }

/-- A plain quiz-mode request without attachment. -/
def reqQuiz : GenRequest :=
  { topic := some "gravity", level := "Beginner", language := "English",
    fileData := none, mimeType := none, mode := some "quiz",
    explanationStyle := none, complexity := none, format := none }

/-- A plain lesson-mode request without attachment. -/
def reqLesson : GenRequest :=
  { topic := some "gravity", level := "Beginner", language := "English",
    fileData := none, mimeType := none, mode := some "lesson",
    explanationStyle := none, complexity := none, format := none }

/-- A request carrying an attachment. -/
def reqFile : GenRequest :=
  { topic := some "gravity", level := "Beginner", language := "English",
    fileData := some "imagedata", mimeType := some "image/png", mode := some "lesson",
    explanationStyle := none, complexity := none, format := none }

/-- Request whose language is already in normal form. -/
def reqLangA : GenRequest :=
  { topic := some "a", level := "b", language := "english",
    fileData := none, mimeType := none, mode := none,
    explanationStyle := none, complexity := none, format := none }

/-- Same request except the language carries a leading space, so its
spec-normalized (trimmed, lower-cased) form is unchanged. -/
def reqLangB : GenRequest :=
  { topic := some "a", level := "b", language := " english",
    fileData := none, mimeType := none, mode := none,
    explanationStyle := none, complexity := none, format := none }

/-- Request with a raw, unnormalized topic. -/
def reqTopicA : GenRequest :=
  { topic := some "Hello  World", level := "Beginner", language := "English",
    fileData := none, mimeType := none, mode := none,
    explanationStyle := none, complexity := none, format := none }

/-- Same request with different topic spelling but identical trimmed,
lower-cased topic. -/
def reqTopicB : GenRequest :=
  { topic := some " hello  world ", level := "Beginner", language := "English",
    fileData := none, mimeType := none, mode := none,
    explanationStyle := none, complexity := none, format := none }

/-- Eleven failing attempts in a row. -/
def allErr : List Attempt := List.replicate 11 (Attempt.err "fetch failed")


/-! Claim C1. -/

/-- C1, counterexample.  The claim says every success in quiz mode has 5
questions with 4 options each and a member correct answer, enforced by a
validation gate in the parse step.  In the code the parse step is only
`JSON.parse`: a quiz payload with an empty questions list is returned as
a success and written to the cache, and it violates the claimed shape. -/
theorem c1_counterexample :
    (POST reqQuiz [] ["K"] pick0 [Attempt.parsed badQuiz] none YtFetch.fail).resp
        = Response.json badQuiz
    ∧ (POST reqQuiz [] ["K"] pick0 [Attempt.parsed badQuiz] none YtFetch.fail).cache
        = [(cacheKeyOf reqQuiz, badQuiz)]
    ∧ quizShapeOk badQuiz = false := by decide

/-- C1 as amended: the gateway has no shape-validation gate.  Whatever
payload `JSON.parse` yields — with no constraint on its questions,
options or correct answers — is returned as the success response (after
optional enrichment) and written to the cache as is. -/
theorem c1_amended (req : GenRequest) (cache : List (String × Payload))
    (keys : List String) (pick : Nat → Nat) (oracle : List Attempt)
    (ytKey : Option String) (yt : YtFetch) (p : Payload)
    (h1 : tooLongTopic req = false) (h2 : tooBigFile req = false)
    (h3 : strTruthy req.fileData = false)
    (h4 : cacheGet cache (cacheKeyOf req) = none)
    (h5 : (runWaterfall keys pick 0 MODELS_TO_TRY oracle "").result = some p) :
    (POST req cache keys pick oracle ytKey yt).resp = Response.json (enrich p ytKey yt)
    ∧ (POST req cache keys pick oracle ytKey yt).cache = cache ++ [(cacheKeyOf req, p)] := by
  rw [POST_success req cache keys pick oracle ytKey yt p h1 h2 h3 h4 h5]
  exact ⟨rfl, rfl⟩

/-- C1 amended, witness: the shape-violating `badQuiz` flows through. -/
theorem c1_amended_witness :
    (POST reqQuiz [] ["K"] pick0 [Attempt.parsed badQuiz] none YtFetch.fail).resp
        = Response.json (enrich badQuiz none YtFetch.fail)
    ∧ (POST reqQuiz [] ["K"] pick0 [Attempt.parsed badQuiz] none YtFetch.fail).cache
        = [] ++ [(cacheKeyOf reqQuiz, badQuiz)] :=
  c1_amended reqQuiz [] ["K"] pick0 [Attempt.parsed badQuiz] none YtFetch.fail badQuiz
    (by decide) (by decide) (by decide) (by decide) (by decide)

/-! Claim C2. -/

/-- C2, counterexample.  The claim says a candidate response that decodes
but violates the schema is treated as a failure and the waterfall
advances.  In the code the first candidate returns the decodable but
shape-violating `badQuiz`; the waterfall stops there (only the first
model is ever called) and returns it, even though the second candidate
would have produced a well-shaped quiz. -/
theorem c2_counterexample :
    quizShapeOk badQuiz = false
    ∧ (runWaterfall ["K"] pick0 0 MODELS_TO_TRY
        [Attempt.parsed badQuiz, Attempt.parsed goodQuiz] "").result = some badQuiz
    ∧ (runWaterfall ["K"] pick0 0 MODELS_TO_TRY
        [Attempt.parsed badQuiz, Attempt.parsed goodQuiz] "").called.map Prod.fst
        = ["gemini-3-flash-preview"] := by decide

/-- C2 as amended: only syntactic decode failures are inside the retry
boundary.  A decodable payload — even one violating the schema for the
active mode — stops the waterfall as a success, while a malformed
response advances it to the next candidate. -/
theorem c2_amended (keys : List String) (pick : Nat → Nat) (i : Nat) (m : String)
    (ms : List String) (oracle : List Attempt) (e s : String) (p : Payload)
    (hbad : quizShapeOk p = false) :
    (runWaterfall keys pick i (m :: ms) (Attempt.parsed p :: oracle) e).result = some p
    ∧ (runWaterfall keys pick i (m :: ms) (Attempt.parsed p :: oracle) e).called.map Prod.fst
        = [m]
    ∧ (runWaterfall keys pick i (m :: ms) (Attempt.malformed s :: oracle) e).called.map Prod.fst
        = m :: (runWaterfall keys pick (i + 1) ms oracle s).called.map Prod.fst := by
  refine ⟨?_, ?_, ?_⟩
  · rw [runWaterfall_parsed keys pick i m ms (Attempt.parsed p :: oracle) e p rfl]
  · rw [runWaterfall_parsed keys pick i m ms (Attempt.parsed p :: oracle) e p rfl]
    simp
  · rw [runWaterfall_failStep keys pick i m ms (Attempt.malformed s :: oracle) e rfl]
    simp [Attempt.msg]

/-- C2 amended, witness. -/
theorem c2_amended_witness :
    (runWaterfall ["K"] pick0 0 ("gemini-3-flash-preview" :: ["gemini-2.5-flash"])
        (Attempt.parsed badQuiz :: [Attempt.parsed goodQuiz]) "").result = some badQuiz
    ∧ (runWaterfall ["K"] pick0 0 ("gemini-3-flash-preview" :: ["gemini-2.5-flash"])
        (Attempt.parsed badQuiz :: [Attempt.parsed goodQuiz]) "").called.map Prod.fst
        = ["gemini-3-flash-preview"]
    ∧ (runWaterfall ["K"] pick0 0 ("gemini-3-flash-preview" :: ["gemini-2.5-flash"])
        (Attempt.malformed "bad json" :: [Attempt.parsed goodQuiz]) "").called.map Prod.fst
        = "gemini-3-flash-preview"
          :: (runWaterfall ["K"] pick0 1 ["gemini-2.5-flash"]
                [Attempt.parsed goodQuiz] "bad json").called.map Prod.fst :=
  c2_amended ["K"] pick0 0 "gemini-3-flash-preview" ["gemini-2.5-flash"]
    [Attempt.parsed goodQuiz] "" "bad json" badQuiz (by decide)

/-! Claim C3. -/

/-- C3: when every candidate fails, the gateway returns a single error
response whose message includes the last recorded failure reason
(appended to the fixed prefix), and the cache store is unchanged with no
write operation performed. -/
theorem c3_all_failed (req : GenRequest) (cache : List (String × Payload))
    (keys : List String) (pick : Nat → Nat) (oracle : List Attempt)
    (ytKey : Option String) (yt : YtFetch)
    (h1 : tooLongTopic req = false) (h2 : tooBigFile req = false)
    (hc : strTruthy req.fileData = false → cacheGet cache (cacheKeyOf req) = none)
    (hfail : ∀ j, j < MODELS_TO_TRY.length → (oracle.getD j noResp).isFail = true) :
    (POST req cache keys pick oracle ytKey yt).resp
        = Response.jsonErr ("System busy. Please try again. "
            ++ (oracle.getD (MODELS_TO_TRY.length - 1) noResp).msg) 500
    ∧ (POST req cache keys pick oracle ytKey yt).cache = cache
    ∧ writesOf (POST req cache keys pick oracle ytKey yt).ops = [] := by
  have h := POST_all_fail req cache keys pick oracle ytKey yt h1 h2 hc hfail
  exact ⟨h.1, h.2.1, h.2.2.1⟩

/-- C3, witness. -/
theorem c3_witness :
    (POST reqQuiz [] ["K"] pick0 allErr none YtFetch.fail).resp
        = Response.jsonErr "System busy. Please try again. fetch failed" 500
    ∧ (POST reqQuiz [] ["K"] pick0 allErr none YtFetch.fail).cache = []
    ∧ writesOf (POST reqQuiz [] ["K"] pick0 allErr none YtFetch.fail).ops = [] :=
  c3_all_failed reqQuiz [] ["K"] pick0 allErr none YtFetch.fail
    (by decide) (by decide) (by decide) (by decide)

/-! Claim C4. -/

/-- C4: if candidates 1..k-1 fail and candidate k + 1 parses, the gateway
returns that candidate's payload (as the success response, possibly
enriched) and the generation calls are exactly the first k + 1 models of
the fixed list, in order — no candidate after the first success is ever
called. -/
theorem c4_first_success_stops (req : GenRequest) (cache : List (String × Payload))
    (keys : List String) (pick : Nat → Nat) (oracle : List Attempt)
    (ytKey : Option String) (yt : YtFetch) (k : Nat) (p : Payload)
    (h1 : tooLongTopic req = false) (h2 : tooBigFile req = false)
    (h3 : strTruthy req.fileData = false)
    (h4 : cacheGet cache (cacheKeyOf req) = none)
    (hk : k < MODELS_TO_TRY.length)
    (hfail : ∀ j, j < k → (oracle.getD j noResp).isFail = true)
    (hsucc : oracle.getD k noResp = Attempt.parsed p) :
    (POST req cache keys pick oracle ytKey yt).resp = Response.json (enrich p ytKey yt)
    ∧ (POST req cache keys pick oracle ytKey yt).called.map Prod.fst
        = MODELS_TO_TRY.take (k + 1) := by
  have hwf := wf_stops_at_first_success keys pick k MODELS_TO_TRY oracle 0 "" p hk hfail hsucc
  rw [POST_success req cache keys pick oracle ytKey yt p h1 h2 h3 h4 hwf.1]
  exact ⟨rfl, hwf.2⟩

/-- C4, witness: first candidate times out, second succeeds; exactly the
first two models are called. -/
theorem c4_witness :
    (POST reqQuiz [] ["K"] pick0 [Attempt.err "Timeout", Attempt.parsed goodQuiz]
        none YtFetch.fail).resp = Response.json (enrich goodQuiz none YtFetch.fail)
    ∧ (POST reqQuiz [] ["K"] pick0 [Attempt.err "Timeout", Attempt.parsed goodQuiz]
        none YtFetch.fail).called.map Prod.fst = MODELS_TO_TRY.take 2 :=
  c4_first_success_stops reqQuiz [] ["K"] pick0
    [Attempt.err "Timeout", Attempt.parsed goodQuiz] none YtFetch.fail 1 goodQuiz
    (by decide) (by decide) (by decide) (by decide) (by decide) (by decide) (by decide)


/-! Claim C5. -/

/-- C5: a request carrying an attachment (truthy `fileData`) never
touches the cache — the trace of cache operations is empty and the store
is returned unchanged, on every path (input-guard rejections, all-failed
runs and successes alike). -/
theorem c5_attachment_bypasses_cache (req : GenRequest) (cache : List (String × Payload))
    (keys : List String) (pick : Nat → Nat) (oracle : List Attempt)
    (ytKey : Option String) (yt : YtFetch)
    (h : strTruthy req.fileData = true) :
    (POST req cache keys pick oracle ytKey yt).ops = []
    ∧ (POST req cache keys pick oracle ytKey yt).cache = cache := by
  by_cases h1 : tooLongTopic req = true
  · simp [POST, h1]
  · have h1f : tooLongTopic req = false := by simpa using h1
    by_cases h2 : tooBigFile req = true
    · simp [POST, h1f, h2]
    · have h2f : tooBigFile req = false := by simpa using h2
      cases hr : (runWaterfall keys pick 0 MODELS_TO_TRY oracle "").result with
      | none => simp [POST, postGenerate, h1f, h2f, h, hr]
      | some p => simp [POST, postGenerate, h1f, h2f, h, hr]

/-- C5, witness: an attachment request leaves a pre-populated cache
untouched and performs no cache operation. -/
theorem c5_witness :
    strTruthy reqFile.fileData = true
    ∧ (POST reqFile [("c", badQuiz)] ["K"] pick0 [Attempt.parsed goodQuiz]
        none YtFetch.fail).ops = []
    ∧ (POST reqFile [("c", badQuiz)] ["K"] pick0 [Attempt.parsed goodQuiz]
        none YtFetch.fail).cache = [("c", badQuiz)] :=
  ⟨by decide,
   (c5_attachment_bypasses_cache reqFile [("c", badQuiz)] ["K"] pick0
      [Attempt.parsed goodQuiz] none YtFetch.fail (by decide)).1,
   (c5_attachment_bypasses_cache reqFile [("c", badQuiz)] ["K"] pick0
      [Attempt.parsed goodQuiz] none YtFetch.fail (by decide)).2⟩

/-! Claim C6. -/

/-- C6, counterexample.  The claim says the key is determined by the
normalized fields, where normalization trims and lower-cases free text.
The code trims only the topic: two requests agreeing in every field and
in the spec-normalized (trimmed, lower-cased) language — differing only
by a leading space in the raw language — produce different keys. -/
theorem c6_counterexample :
    specNormalize reqLangA.language = specNormalize reqLangB.language
    ∧ reqLangA.topic = reqLangB.topic
    ∧ reqLangA.level = reqLangB.level
    ∧ reqLangA.mode = reqLangB.mode
    ∧ reqLangA.explanationStyle = reqLangB.explanationStyle
    ∧ reqLangA.complexity = reqLangB.complexity
    ∧ reqLangA.format = reqLangB.format
    ∧ cacheKeyOf reqLangA ≠ cacheKeyOf reqLangB := by decide

/-- C6 as amended: key construction is a pure deterministic function of
the request fields under the normalization the code actually performs —
the topic is trimmed, lower-cased and whitespace-collapsed, level and
language are lower-cased but not trimmed, and absent knobs take the
fixed defaults.  Two requests agreeing under that normalization always
get the identical key. -/
theorem c6_key_deterministic (r1 r2 : GenRequest)
    (ht : cleanTopicOf r1.topic = cleanTopicOf r2.topic)
    (hl : jsToLower r1.level = jsToLower r2.level)
    (hg : jsToLower r1.language = jsToLower r2.language)
    (hm : jsOr r1.mode "lesson" = jsOr r2.mode "lesson")
    (hs : jsOr r1.explanationStyle "default" = jsOr r2.explanationStyle "default")
    (hx : jsOr r1.complexity "medium" = jsOr r2.complexity "medium")
    (hf : jsOr r1.format "paragraph" = jsOr r2.format "paragraph") :
    cacheKeyOf r1 = cacheKeyOf r2 := by
  unfold cacheKeyOf
  rw [ht, hl, hg, hm, hs, hx, hf]

/-- C6 amended, witness: two spellings of the same topic (extra inner
and outer whitespace, mixed case) normalize alike and get the same key. -/
theorem c6_witness :
    cleanTopicOf reqTopicA.topic = cleanTopicOf reqTopicB.topic
    ∧ cacheKeyOf reqTopicA = cacheKeyOf reqTopicB :=
  ⟨by decide,
   c6_key_deterministic reqTopicA reqTopicB (by decide) (by decide) (by decide)
     (by decide) (by decide) (by decide) (by decide)⟩

/-! Claim C7. -/

/-- C7, counterexample.  The claim says an empty credential set is
surfaced as a fatal configuration error before any generation attempt.
In the code `getRandomKey` has no emptiness check: with zero credentials
the loop still issues a generation call to every one of the 11
candidates (each drawing no key) and the request ends in the ordinary
all-candidates-exhausted error, not a prior configuration error. -/
theorem c7_counterexample :
    (POST reqQuiz [] [] pick0 allErr none YtFetch.fail).called.map Prod.fst
        = MODELS_TO_TRY
    ∧ (POST reqQuiz [] [] pick0 allErr none YtFetch.fail).resp
        = Response.jsonErr "System busy. Please try again. fetch failed" 500 := by decide

/-- C7 as amended: with no configured credentials the gateway performs no
up-front check; the waterfall runs over the full candidate list, every
call is issued with no key (`none`), each failure is handled as an
ordinary per-attempt failure, and the run ends with the ordinary
exhausted error. -/
theorem c7_no_credentials (req : GenRequest) (cache : List (String × Payload))
    (pick : Nat → Nat) (oracle : List Attempt) (ytKey : Option String) (yt : YtFetch)
    (h1 : tooLongTopic req = false) (h2 : tooBigFile req = false)
    (hc : strTruthy req.fileData = false → cacheGet cache (cacheKeyOf req) = none)
    (hfail : ∀ j, j < MODELS_TO_TRY.length → (oracle.getD j noResp).isFail = true) :
    (POST req cache [] pick oracle ytKey yt).called.map Prod.fst = MODELS_TO_TRY
    ∧ (∀ x ∈ (POST req cache [] pick oracle ytKey yt).called, x.2 = none)
    ∧ (POST req cache [] pick oracle ytKey yt).resp
        = Response.jsonErr ("System busy. Please try again. "
            ++ (oracle.getD (MODELS_TO_TRY.length - 1) noResp).msg) 500 := by
  have h := POST_all_fail req cache [] pick oracle ytKey yt h1 h2 hc hfail
  refine ⟨h.2.2.2.2, ?_, h.1⟩
  intro x hx
  rw [h.2.2.2.1] at hx
  exact wf_keys_none pick MODELS_TO_TRY oracle 0 "" x hx

/-- C7 amended, witness. -/
theorem c7_witness :
    (POST reqQuiz [] [] pick0 allErr none YtFetch.fail).called.map Prod.fst
        = MODELS_TO_TRY
    ∧ (∀ x ∈ (POST reqQuiz [] [] pick0 allErr none YtFetch.fail).called, x.2 = none)
    ∧ (POST reqQuiz [] [] pick0 allErr none YtFetch.fail).resp
        = Response.jsonErr ("System busy. Please try again. "
            ++ ((allErr.getD (MODELS_TO_TRY.length - 1) noResp).msg)) 500 :=
  c7_no_credentials reqQuiz [] pick0 allErr none YtFetch.fail
    (by decide) (by decide) (by decide) (by decide)


/-! Claim C8. -/

/-- C8: in the route.ts waterfall, when an attachment is present, no
generation call is ever issued to a candidate flagged as not accepting
attachments (the code flags exactly the models whose name includes
"gemma"): every (model, key) pair that received a call has a
non-"gemma" model name.  In part_002 the skip was removed together with
the flag itself (comment: Gemma vision is allowed there), so no
candidate is flagged and the property holds vacuously. -/
theorem c8_flagged_skipped (keys : List String) (pick : Nat → Nat) :
    ∀ (models : List String) (oracle : List Attempt) (i : Nat) (e : String)
      (m : String) (k : Option String),
      (m, k) ∈ (runWaterfallRoute keys pick i true models oracle e).called →
      jsIncludes m "gemma" = false := by
  intro models
  induction models with
  | nil => intro oracle i e m k h; simp [runWaterfallRoute] at h
  | cons m0 ms ih =>
    intro oracle i e m k h
    by_cases hg : jsIncludes m0 "gemma" = true
    · rw [runWaterfallRoute_skip keys pick i true m0 ms oracle e (by simp [hg])] at h
      exact ih oracle i e m k h
    · have hg2 : jsIncludes m0 "gemma" = false := by simpa using hg
      have hskip : (true && jsIncludes m0 "gemma") = false := by simp [hg2]
      cases hc : oracle.headD noResp with
      | parsed p =>
        rw [runWaterfallRoute_parsed keys pick i true m0 ms oracle e p hskip hc] at h
        simp at h
        rw [h.1]
        exact hg2
      | err e0 =>
        rw [runWaterfallRoute_failStep keys pick i true m0 ms oracle e hskip
          (by rw [hc]; rfl)] at h
        rcases List.mem_cons.mp h with h1 | h1
        · have hm : m = m0 := congrArg Prod.fst h1
          rw [hm]; exact hg2
        · exact ih oracle.tail (i + 1) ((oracle.headD noResp).msg) m k h1
      | malformed e0 =>
        rw [runWaterfallRoute_failStep keys pick i true m0 ms oracle e hskip
          (by rw [hc]; rfl)] at h
        rcases List.mem_cons.mp h with h1 | h1
        · have hm : m = m0 := congrArg Prod.fst h1
          rw [hm]; exact hg2
        · exact ih oracle.tail (i + 1) ((oracle.headD noResp).msg) m k h1

/-- C8, witness: with an attachment and every call failing, a non-Gemma
model is among those called, and the theorem certifies it is unflagged;
the evaluated run shows the Gemma models were skipped. -/
theorem c8_witness :
    ("gemini-2.5-flash", (none : Option String))
        ∈ (runWaterfallRoute [] pick0 0 true ROUTE_MODELS
            (List.replicate 10 (Attempt.err "x")) "").called
    ∧ jsIncludes "gemini-2.5-flash" "gemma" = false := by
  have hcalled : (runWaterfallRoute [] pick0 0 true ROUTE_MODELS
      (List.replicate 10 (Attempt.err "x")) "").called
      = [("gemini-3-flash-preview", none), ("gemini-2.5-flash", none),
         ("gemini-2.5-flash-lite", none), ("gemini-robotics-er-1.5-preview", none),
         ("gemini-1.5-flash", none)] := by decide
  have hmem : ("gemini-2.5-flash", (none : Option String))
      ∈ (runWaterfallRoute [] pick0 0 true ROUTE_MODELS
          (List.replicate 10 (Attempt.err "x")) "").called := by
    rw [hcalled]; simp
  exact ⟨hmem,
    c8_flagged_skipped [] pick0 ROUTE_MODELS (List.replicate 10 (Attempt.err "x")) 0 ""
      "gemini-2.5-flash" none hmem⟩

/-! Claim C9. -/

/-- C9, counterexample.  The claim says the response on the
enrichment-failure path is identical to the enriched one except for
LACKING the video_url field.  The lesson prompt asks the model itself to
emit `video_url`; when the parsed payload carries one (here
`lessonX.video_url = some "model-supplied"`) and the YouTube lookup
fails (missing API key), the returned success response still contains
that video_url field — it does not lack it. -/
theorem c9_counterexample :
    (POST reqLesson [] ["K"] pick0 [Attempt.parsed lessonX] none YtFetch.fail).resp
        = Response.json lessonX
    ∧ lessonX.video_url = some "model-supplied" := by decide

/-- Enrichment touches only the `video_url` field of a payload. -/
lemma eraseVideo_enrich (p : Payload) (k : Option String) (f : YtFetch) :
    eraseVideo (enrich p k f) = eraseVideo p := by
  unfold enrich
  split_ifs <;> rfl

/-- C9 as amended: an enrichment failure is never surfaced — the caller
still receives the success response, which is the parsed payload
unchanged; and enrichment can only ever differ from it in the
`video_url` field (so the failure response lacks video_url exactly when
the payload itself carried none). -/
theorem c9_enrichment_failure_silent (req : GenRequest) (cache : List (String × Payload))
    (keys : List String) (pick : Nat → Nat) (oracle : List Attempt)
    (ytKey : Option String) (yt : YtFetch) (p : Payload)
    (h1 : tooLongTopic req = false) (h2 : tooBigFile req = false)
    (h3 : strTruthy req.fileData = false)
    (h4 : cacheGet cache (cacheKeyOf req) = none)
    (h5 : (runWaterfall keys pick 0 MODELS_TO_TRY oracle "").result = some p)
    (h6 : searchYouTube ytKey yt = "") :
    (POST req cache keys pick oracle ytKey yt).resp = Response.json p
    ∧ (∀ k2 f2, eraseVideo (enrich p k2 f2) = eraseVideo p) := by
  have he : enrich p ytKey yt = p := by
    unfold enrich
    rw [h6]
    simp
  rw [POST_success req cache keys pick oracle ytKey yt p h1 h2 h3 h4 h5]
  exact ⟨by rw [he], fun k2 f2 => eraseVideo_enrich p k2 f2⟩

/-- C9 amended, witness. -/
theorem c9_witness :
    (POST reqLesson [] ["K"] pick0 [Attempt.parsed lessonX] none YtFetch.fail).resp
        = Response.json lessonX
    ∧ (∀ k2 f2, eraseVideo (enrich lessonX k2 f2) = eraseVideo lessonX) :=
  c9_enrichment_failure_silent reqLesson [] ["K"] pick0 [Attempt.parsed lessonX]
    none YtFetch.fail lessonX
    (by decide) (by decide) (by decide) (by decide) (by decide) (by decide)

/-! Claim C10. -/

/-- C10, counterexample.  The claim says no cache entry ever contains a
video_url.  The cache write stores the parsed payload verbatim, and the
lesson prompt asks the model to emit `video_url` itself: here the cached
entry carries the model-supplied video_url (while the response carries
the enrichment one). -/
theorem c10_counterexample :
    (POST reqLesson [] ["K"] pick0 [Attempt.parsed lessonX]
        (some "YT") (YtFetch.items ["vid123"])).cache
      = [(cacheKeyOf reqLesson, lessonX)]
    ∧ lessonX.video_url = some "model-supplied"
    ∧ (POST reqLesson [] ["K"] pick0 [Attempt.parsed lessonX]
        (some "YT") (YtFetch.items ["vid123"])).resp
      = Response.json
          { lessonX with video_url := some "https://www.youtube.com/watch?v=vid123" }
    := by decide

/-- C10 as amended: the cache write happens strictly before enrichment
and stores exactly the parsed payload, so the enrichment-derived
video_url is never cached — a cached lesson carries a video_url only if
the model payload itself included one, and when the payload carried none
every written entry has none even though the in-flight response may
carry the enrichment reference. -/
theorem c10_cache_pre_enrichment (req : GenRequest) (cache : List (String × Payload))
    (keys : List String) (pick : Nat → Nat) (oracle : List Attempt)
    (ytKey : Option String) (yt : YtFetch) (p : Payload)
    (h1 : tooLongTopic req = false) (h2 : tooBigFile req = false)
    (h3 : strTruthy req.fileData = false)
    (h4 : cacheGet cache (cacheKeyOf req) = none)
    (h5 : (runWaterfall keys pick 0 MODELS_TO_TRY oracle "").result = some p) :
    (POST req cache keys pick oracle ytKey yt).cache = cache ++ [(cacheKeyOf req, p)]
    ∧ writesOf (POST req cache keys pick oracle ytKey yt).ops = [(cacheKeyOf req, p)]
    ∧ (POST req cache keys pick oracle ytKey yt).resp = Response.json (enrich p ytKey yt)
    ∧ (p.video_url = none →
        ∀ q ∈ writesOf (POST req cache keys pick oracle ytKey yt).ops,
          q.2.video_url = none) := by
  rw [POST_success req cache keys pick oracle ytKey yt p h1 h2 h3 h4 h5]
  refine ⟨rfl, by simp [writesOf], rfl, ?_⟩
  intro hnone q hq
  simp [writesOf] at hq
  rw [hq]
  exact hnone

/-- C10 amended, witness. -/
theorem c10_witness :
    (POST reqLesson [] ["K"] pick0 [Attempt.parsed lessonX]
        (some "YT") (YtFetch.items ["vid123"])).cache
      = [] ++ [(cacheKeyOf reqLesson, lessonX)]
    ∧ writesOf (POST reqLesson [] ["K"] pick0 [Attempt.parsed lessonX]
        (some "YT") (YtFetch.items ["vid123"])).ops = [(cacheKeyOf reqLesson, lessonX)]
    ∧ (POST reqLesson [] ["K"] pick0 [Attempt.parsed lessonX]
        (some "YT") (YtFetch.items ["vid123"])).resp
      = Response.json (enrich lessonX (some "YT") (YtFetch.items ["vid123"]))
    ∧ (lessonX.video_url = none →
        ∀ q ∈ writesOf (POST reqLesson [] ["K"] pick0 [Attempt.parsed lessonX]
            (some "YT") (YtFetch.items ["vid123"])).ops, q.2.video_url = none) :=
  c10_cache_pre_enrichment reqLesson [] ["K"] pick0 [Attempt.parsed lessonX]
    (some "YT") (YtFetch.items ["vid123"]) lessonX
    (by decide) (by decide) (by decide) (by decide) (by decide)

end SkillFlow
